import Mathlib

/-!
Shallow embedding of the pychecker runtime contract-enforcement engine
(src/config.py, src/utils/__init__.py, src/errors.py, src/validators.py,
src/parser.py, src/wrappers.py, src/decorators.py) together with theorems
settling the claims about it.

Python values are modelled by an explicit universe `PyVal`; Python runtime
types by `PyType`.  Raised exceptions are modelled by `Except PyError`.
Machine-level aspects (object identity, reference semantics) are modelled
structurally; where a claim depends on a stdlib fact (for example which of
the special conversion methods a built-in type defines) the model follows
CPython 3 and the fact is recorded in a comment at the definition.
-/

/-- Runtime types of the modelled Python value universe. -/
inductive PyType where
  | tNone
  | tBool
  | tInt
  | tFloat
  | tComplex
  | tStr
  | tBytes
  | tIterator
  deriving DecidableEq

/-- The Python values the embedding manipulates.  `vFloat n` stands for the
float with integral value `n` (no claim inspects a non-integral float);
`vIter items pos` is a list iterator whose remaining elements are
`items.drop pos`. -/
inductive PyVal where
  | vNone
  | vBool (b : Bool)
  | vInt (n : Int)
  | vFloat (n : Int)
  | vComplex (re im : Int)
  | vStr (s : String)
  | vBytes (s : String)
  | vIter (items : List PyVal) (pos : Nat)

/-- value is None (Python identity test against the None singleton). -/
def isNoneVal : PyVal → Bool
  | .vNone => true
  | _ => false

/-- Exceptions raised by the modelled code.  `validationError` mirrors the
keyword arguments of errors.ValidationError (func, param, expected, got,
details, message). -/
inductive PyError where
  | validationError (func param expected got details message : Option String)
  | typeError (msg : String)
  | keyError (msg : String)
  | valueError (msg : String)
  | attributeError (msg : String)
  | assertionError
  | stopIteration
  | notImplementedError
  deriving DecidableEq

def PyError.isValidationError : PyError → Bool
  | .validationError .. => true
  | _ => false

/-- type(value) for the modelled universe. -/
def runtimeType : PyVal → PyType
  | .vNone => .tNone
  | .vBool _ => .tBool
  | .vInt _ => .tInt
  | .vFloat _ => .tFloat
  | .vComplex _ _ => .tComplex
  | .vStr _ => .tStr
  | .vBytes _ => .tBytes
  | .vIter _ _ => .tIterator

/-- type.__name__ for the modelled types (the iterator type prints as
the CPython list iterator). -/
def typeName : PyType → String
  | .tNone => "NoneType"
  | .tBool => "bool"
  | .tInt => "int"
  | .tFloat => "float"
  | .tComplex => "complex"
  | .tStr => "str"
  | .tBytes => "bytes"
  | .tIterator => "list_iterator"

/-- issubclass for the modelled types: reflexive, and bool is the one
built-in proper subclass (of int) in the universe. -/
def isSubclassB (t u : PyType) : Bool :=
  t == u || (t == .tBool && u == .tInt)

/-- isinstance(v, T): the runtime type of `v` is `T` or a subclass of it. -/
def pyIsInstance (v : PyVal) (t : PyType) : Bool :=
  isSubclassB (runtimeType v) t

/-- bool(value): CPython truthiness for the modelled universe. -/
def truthy : PyVal → Bool
  | .vNone => false
  | .vBool b => b
  | .vInt n => n != 0
  | .vFloat n => n != 0
  | .vComplex re im => re != 0 || im != 0
  | .vStr s => s != ""
  | .vBytes s => s != ""
  | .vIter _ _ => true

/-- isinstance(value, collections.abc.Iterator): only the iterator values. -/
def isIterator : PyVal → Bool
  | .vIter _ _ => true
  | _ => false

/-- isinstance(value, collections.abc.Iterable): iterators, strings and
bytes are the iterable values of the universe. -/
def isIterable : PyVal → Bool
  | .vIter _ _ => true
  | .vStr _ => true
  | .vBytes _ => true
  | _ => false

/-- str(value) for the modelled universe (CPython formatting; floats in the
model are integral, so they print with a trailing .0). -/
def pyStr : PyVal → String
  | .vNone => "None"
  | .vBool b => if b then "True" else "False"
  | .vInt n => toString n
  | .vFloat n => toString n ++ ".0"
  | .vComplex re im =>
      if re == 0 then toString im ++ "j"
      else "(" ++ toString re ++ (if im < 0 then "" else "+") ++ toString im ++ "j)"
  | .vStr s => s
  | .vBytes s => s
  | .vIter _ _ => "<list_iterator>"

/-- utils.ordinal: the ordinal abbreviation used in diagnostics.  The
source asserts that k is an int greater than 0, returns 1st and 2nd for 1
and 2, and the decimal of k followed by th for everything else. -/
def ordinal (k : Int) : Except PyError String :=
  if k > 0 then
    if k = 1 then .ok "1st"
    else if k = 2 then .ok "2nd"
    else .ok (toString k ++ "th")
  else .error .assertionError

/-! ## config.py -/

/-- config.setting_specs: the seven recognized settings, each with its
declared value type (all of them bool). -/
def setting_specs : List (String × PyType) :=
  [("enabled", .tBool),
   ("ignore_subclasses", .tBool),
   ("match_self", .tBool),
   ("match_args", .tBool),
   ("match_varargs", .tBool),
   ("match_defaults", .tBool),
   ("match_return", .tBool)]

/-- config.all_settings = list(setting_specs.keys()). -/
def all_settings : List String := setting_specs.map (fun p => p.1)

/-- config.global_settings: the default value of each setting. -/
def global_settings : List (String × PyVal) :=
  [("enabled", .vBool false),
   ("ignore_subclasses", .vBool false),
   ("match_self", .vBool true),
   ("match_args", .vBool true),
   ("match_varargs", .vBool true),
   ("match_defaults", .vBool false),
   ("match_return", .vBool true)]

/-- dict-style insert-or-update on an association list (CPython dicts keep
insertion order and overwrite in place). -/
def assocSet : List (String × PyVal) → String → PyVal → List (String × PyVal)
  | [], k, v => [(k, v)]
  | (k0, v0) :: rest, k, v =>
      if k0 == k then (k, v) :: rest else (k0, v0) :: assocSet rest k v

/-- Settings.__setitem__ as a state transformer: the error raised (if any)
together with the resulting entries.  In the source, `key not in
all_settings` is checked first (KeyError), then the spec for the key is
fetched; every spec is a class (bool), so the isinstance check follows
(TypeError); the list-of-allowed-values branch is dead because no spec is a
list or tuple.  On failure the entries are untouched. -/
def settings_setitem (entries : List (String × PyVal)) (key : String) (value : PyVal) :
    Option PyError × List (String × PyVal) :=
  match setting_specs.lookup key with
  | none => (some (.keyError (key ++ " is not a valid setting")), entries)
  | some spec =>
      if pyIsInstance value spec then (none, assocSet entries key value)
      else (some (.typeError (key ++ " setting must be a " ++ typeName spec ++ " value")), entries)

/-- The invariant of a Settings mapping: every entry is one of the
recognized settings mapped to a value of its declared type. -/
def settingsInvB (entries : List (String × PyVal)) : Bool :=
  entries.all (fun p =>
    match setting_specs.lookup p.1 with
    | some spec => pyIsInstance p.2 spec
    | none => false)

/-! ## validators.py: the validator tree -/

/-- The validation context dictionary passed through `validate` and stored
in proxies: the function name and parameter label keys, each possibly
absent. -/
structure Ctx where
  func : Option String
  param : Option String
  deriving DecidableEq

/-- The empty context, the default of Validator.validate. -/
def emptyCtx : Ctx := ⟨none, none⟩

/-- The validator variants of validators.py that the claims touch.

The constructor-enforced invariants of the source (TypeValidator asserts a
non-empty type set at construction; Iterator/Iterable validators assert at
most one child; OptionalValidator asserts exactly one child) are mirrored
in the constructor shapes.  `userV` carries the __name__ of the wrapped
predicate together with the predicate itself. -/
inductive Validator where
  | anyV
  | noneV
  | trueV
  | falseV
  | typeV (types : List PyType) (check_subclasses check_compatible_classes : Bool)
  | userV (name : String) (func : PyVal → PyVal)
  | iteratorV (child : Option Validator)
  | iterableV (child : Option Validator)
  | optionalV (child : Validator)

/-- A Python object as produced by `validate`: either a plain value of the
universe or one of the validating proxies (which wrap the underlying
value, the child validator and the stored context). -/
inductive PyObj where
  | plain (v : PyVal)
  | iterProxy (items : List PyVal) (pos : Nat) (child : Validator) (ctx : Ctx)
  | iterableProxy (target : PyVal) (child : Validator) (ctx : Ctx)

/-- What a suspended validator generator does when `send(context)` resumes
it after the first yielded boolean: finish (StopIteration), yield a
replacement object, or raise. -/
inductive GenNext where
  | stop
  | yieldVal (w : PyObj)
  | raiseErr (e : PyError)

/-- The first phase of a validator generator, i.e. what `next()` produces:
the generator may finish before yielding (StopIteration carrying None or a
bool return value), raise, or yield its first boolean and then wait for
the context. -/
inductive GenFirst where
  | stopRet (b : Option Bool)
  | raiseFirst (e : PyError)
  | yieldBool (b : Bool) (next : Ctx → GenNext)

/-- The value returned by Validator.__call__: None, a bool, a generator,
or (for a user predicate) any other object. -/
inductive CallResult where
  | rNone
  | rBool (b : Bool)
  | rVal (v : PyVal)
  | rGen (g : GenFirst)

/-- The special conversion methods consulted by TypeValidator.make_cast,
in the order of its `methods` dict. -/
def cast_methods : List (String × PyType) :=
  [("__int__", .tInt),
   ("__trunc__", .tInt),
   ("__bool__", .tBool),
   ("__str__", .tStr),
   ("__float__", .tFloat),
   ("__complex__", .tComplex),
   ("__bytes__", .tBytes)]

/-- hasattr(value, attr) combined with the result of calling the bound
conversion method, for the seven methods of `cast_methods`.  Which
built-in type defines which method follows CPython 3 (verified against
CPython: int/bool/float define __int__, __trunc__, __bool__, __str__ and
__float__; complex defines __bool__, __str__ and __complex__ only — in
particular it has neither __int__ nor __float__; str defines only __str__;
bytes defines __str__ and __bytes__; None defines __bool__ and __str__;
iterators define only __str__). -/
def py_method (v : PyVal) (attr : String) : Option PyVal :=
  match v with
  | .vInt n =>
      if attr == "__int__" || attr == "__trunc__" then some (.vInt n)
      else if attr == "__bool__" then some (.vBool (truthy v))
      else if attr == "__str__" then some (.vStr (pyStr v))
      else if attr == "__float__" then some (.vFloat n)
      else none
  | .vBool b =>
      if attr == "__int__" || attr == "__trunc__" then some (.vInt (if b then 1 else 0))
      else if attr == "__bool__" then some (.vBool b)
      else if attr == "__str__" then some (.vStr (pyStr v))
      else if attr == "__float__" then some (.vFloat (if b then 1 else 0))
      else none
  | .vFloat n =>
      if attr == "__int__" || attr == "__trunc__" then some (.vInt n)
      else if attr == "__bool__" then some (.vBool (truthy v))
      else if attr == "__str__" then some (.vStr (pyStr v))
      else if attr == "__float__" then some (.vFloat n)
      else none
  | .vComplex re im =>
      if attr == "__bool__" then some (.vBool (truthy v))
      else if attr == "__str__" then some (.vStr (pyStr v))
      else if attr == "__complex__" then some (.vComplex re im)
      else none
  | .vStr s =>
      if attr == "__str__" then some (.vStr s)
      else none
  | .vBytes s =>
      if attr == "__str__" then some (.vStr (pyStr v))
      else if attr == "__bytes__" then some (.vBytes s)
      else none
  | .vNone =>
      if attr == "__bool__" then some (.vBool false)
      else if attr == "__str__" then some (.vStr "None")
      else none
  | .vIter _ _ =>
      if attr == "__str__" then some (.vStr (pyStr v))
      else none

/-- TypeValidator.make_cast.  The source walks the `methods` dict in
order; an entry applies when its target class is among the validator
types and the value has the conversion method; an applying entry whose
source value is a complex number and whose target is float or int is
skipped (`continue`).  The first surviving entry makes the generator yield
True and then the converted value; if none survives, the generator returns
False. -/
def make_cast (v : PyVal) (types : List PyType) : GenFirst :=
  match cast_methods.findSome? (fun p =>
      if p.2 ∈ types then
        match py_method v p.1 with
        | some res =>
            if runtimeType v == .tComplex && (p.2 == .tFloat || p.2 == .tInt) then none
            else some res
        | none => none
      else none) with
  | some res => .yieldBool true (fun _ => .yieldVal (.plain res))
  | none => .stopRet (some false)

/-- Helper joining type names with commas and a final or. -/
def typeSetNiddleJoin (first : String) : List String → String
  | [] => first
  | [last] => first ++ " or " ++ last
  | n :: rest => typeSetNiddleJoin (first ++ ", " ++ n) rest

/-- The niddle (expected-shape label) of a type set: the type names joined
with commas and a final or.  The source materializes the set as
`tuple(frozenset(types))`, whose order CPython leaves unspecified; the
model keeps the declaration order. -/
def typeSetNiddle (types : List PyType) : String :=
  match types.map typeName with
  | [] => ""
  | [n] => n
  | n :: rest => typeSetNiddleJoin n rest

/-- Validator.niddle for each variant. -/
def niddle : Validator → String
  | .anyV => "any"
  | .noneV => "None"
  | .trueV => "any true value or statement"
  | .falseV => "any false value or statement"
  | .typeV types _ _ => typeSetNiddle types
  | .userV _ _ => "..."
  | .iteratorV none => "iterator"
  | .iteratorV (some c) => "iterator of " ++ niddle c
  | .iterableV none => "iterable"
  | .iterableV (some c) => "iterable of " ++ niddle c
  | .optionalV c => niddle c ++ " or None"

/-- Validator.error, specialized per variant as the source overrides it:
the base class passes expected=niddle plus the context (and any details
the caller supplies); NoneValidator and TypeValidator add a `got` entry
(TypeValidator prints None for the None value); UserValidator builds its
own message from the predicate name and forwards no expected label. -/
def validatorError (V : Validator) (v : PyVal) (ctx : Ctx) (details : Option String) : PyError :=
  match V with
  | .noneV =>
      .validationError ctx.func ctx.param (some (niddle V))
        (some (typeName (runtimeType v))) details none
  | .typeV _ _ _ =>
      .validationError ctx.func ctx.param (some (niddle V))
        (some (if isNoneVal v then "None" else typeName (runtimeType v))) details none
  | .userV name _ =>
      .validationError ctx.func ctx.param none none (some (name ++ " returned False")) none
  | _ =>
      .validationError ctx.func ctx.param (some (niddle V)) none details none

/-- Validator.test, the part after __call__: normalize the result of
__call__ to a bool.  A result that is neither None, nor a bool, nor a
generator raises TypeError; a generator is advanced once, taking an early
StopIteration return value (defaulting to True) or the first yielded
boolean; an exception escaping the generator body propagates. -/
def vtestOf : CallResult → Except PyError Bool
  | .rNone => .ok true
  | .rBool b => .ok b
  | .rVal _ => .error (.typeError "Validator.__call__ should return None, bool or generator")
  | .rGen (.raiseFirst e) => .error e
  | .rGen (.stopRet b) => .ok (b.getD true)
  | .rGen (.yieldBool b _) => .ok b

/-- Validator.validate, the part after __call__: None or True means the
value is returned; False raises the validator error built from the
context; for a generator, a failing first signal resumes the generator
once so it can raise a custom error (any non-StopIteration exception it
raises propagates, otherwise the default error is raised), while a
passing first signal resumes it with the context and replaces the value
with the yielded proxy when one is produced. -/
def validateOf (V : Validator) (v : PyVal) (ctx : Ctx) : CallResult → Except PyError PyObj
  | .rNone => .ok (.plain v)
  | .rBool true => .ok (.plain v)
  | .rBool false => .error (validatorError V v ctx none)
  | .rVal _ => .error (.typeError "Validator.__call__ should return None, bool or generator")
  | .rGen (.raiseFirst e) => .error e
  | .rGen (.stopRet b) =>
      if b.getD true then .ok (.plain v) else .error (validatorError V v ctx none)
  | .rGen (.yieldBool b next) =>
      if b then
        match next ctx with
        | .stop => .ok (.plain v)
        | .yieldVal w => .ok w
        | .raiseErr e => .error e
      else
        match next ctx with
        | .raiseErr e => .error e
        | _ => .error (validatorError V v ctx none)

/-- Validator.__call__ for each variant.  The leaf validators return plain
booleans (AnyValidator returns True for everything, NoneValidator compares
with None, True/FalseValidator apply truth testing); TypeValidator returns
the membership/subclass test, falling back to the make_cast generator when
the test fails and compatible-class checking is on; UserValidator returns
whatever the wrapped predicate returns; the tree validators are generator
functions, so calling them always produces a generator, modelled by its
first phase.  OptionalValidator calls test and validate on its child,
which the model spells as the child call result fed through vtestOf and
validateOf. -/
def validatorCall (V : Validator) (v : PyVal) : CallResult :=
  match V with
  | .anyV => .rBool true
  | .noneV => .rBool (isNoneVal v)
  | .trueV => .rBool (truthy v)
  | .falseV => .rBool (!truthy v)
  | .typeV types cs cc =>
      let valid :=
        if cs then types.any (fun t => isSubclassB (runtimeType v) t)
        else types.any (fun t => runtimeType v == t)
      if !valid && cc then .rGen (make_cast v types)
      else .rBool valid
  | .userV _ f =>
      match f v with
      | .vBool b => .rBool b
      | .vNone => .rNone
      | w => .rVal w
  | .iteratorV child =>
      .rGen
        (if !isIterator v then .stopRet (some false)
         else
           match v, child with
           | .vIter items pos, some c =>
               .yieldBool true (fun ctx => .yieldVal (.iterProxy items pos c ctx))
           | _, _ => .yieldBool true (fun _ => .stop))
  | .iterableV child =>
      .rGen
        (if !isIterable v then .stopRet (some false)
         else
           match child with
           | some c => .yieldBool true (fun ctx => .yieldVal (.iterableProxy v c ctx))
           | none => .yieldBool true (fun _ => .stop))
  | .optionalV c =>
      .rGen
        (if isNoneVal v then .stopRet (some true)
         else
           match vtestOf (validatorCall c v) with
           | .error e => .raiseFirst e
           | .ok false => .stopRet (some false)
           | .ok true =>
               .yieldBool true (fun ctx =>
                 match validateOf c v ctx (validatorCall c v) with
                 | .ok w => .yieldVal w
                 | .error e => .raiseErr e))

/-- Validator.test: __call__ followed by the bool normalization. -/
def vtest (V : Validator) (v : PyVal) : Except PyError Bool :=
  vtestOf (validatorCall V v)

/-- Validator.validate: __call__ followed by the raise-or-replace
normalization. -/
def validate (V : Validator) (v : PyVal) (ctx : Ctx) : Except PyError PyObj :=
  validateOf V v ctx (validatorCall V v)

/-- IteratorProxy.__next__: pull the next underlying item (StopIteration
propagates when the source is exhausted), validate it against the single
child validator with an empty context, and on a ValidationError replace it
by the error of the iterator validator itself, whose details name the runtime type
of the offending item; any other exception propagates.  Returns the
(possibly replaced) item together with the new position of the underlying
iterator. -/
def iterator_proxy_next (items : List PyVal) (pos : Nat) (child : Validator) (ctx : Ctx) :
    Except PyError (PyObj × Nat) :=
  match items[pos]? with
  | none => .error .stopIteration
  | some item =>
      match validate child item emptyCtx with
      | .ok r => .ok (r, pos + 1)
      | .error e =>
          if e.isValidationError then
            .error (validatorError (.iteratorV (some child)) (.vIter items pos) ctx
              (some ((if isNoneVal item then "None" else typeName (runtimeType item))
                ++ " value found while iterating")))
          else .error e

/-! ## config.py: the module-settings proxy and its attribute chain -/

/-- The non-dunder mixin methods collections.abc.MutableMapping provides
(CPython 3; verified: there is no `copy` among them). -/
def mutable_mapping_attrs : List String :=
  ["clear", "get", "items", "keys", "pop", "popitem", "setdefault", "update", "values",
   "__contains__", "__eq__", "__ne__", "__len__", "__iter__",
   "__getitem__", "__setitem__", "__delitem__"]

/-- The attributes object.__getattribute__ finds on a ModuleSettings
instance: the names defined in the Settings and ModuleSettings class
bodies, the MutableMapping mixins, and the _entries slot. -/
def module_settings_attrs : List String :=
  ["_entries", "__init__", "__delitem__", "__iter__", "__len__",
   "__getitem__", "__setitem__", "__str__", "__repr__",
   "__getattribute__", "__setattr__"] ++ mutable_mapping_attrs

/-- ModuleSettings.__getattribute__: a real attribute is returned (the
model abstracts its value to a unit); otherwise the lookup falls back to
__getitem__, which answers for the recognized settings and otherwise
raises KeyError, re-raised as AttributeError with the same message. -/
def module_settings_getattr (key : String) : Except PyError Unit :=
  if key ∈ module_settings_attrs then .ok ()
  else if key ∈ all_settings then .ok ()
  else .error (.attributeError ("There is not setting called " ++ key))

/-- The attributes object.__getattribute__ finds on the unique
ModuleSettingsProxy instance: its class body names, the MutableMapping
mixins, and the _settings slot. -/
def proxy_attrs : List String :=
  ["_settings", "__init__", "get_module_settings", "get_caller_module_settings",
   "settings", "__getitem__", "__setitem__", "__delitem__",
   "__getattribute__", "__setattr__", "__iter__", "__len__",
   "__str__", "__repr__"] ++ mutable_mapping_attrs

/-- ModuleSettingsProxy.__getattribute__: a real attribute is returned,
anything else is delegated to the caller-module ModuleSettings object. -/
def settings_proxy_getattr (key : String) : Except PyError Unit :=
  if key ∈ proxy_attrs then .ok ()
  else module_settings_getattr key

/-- The (key, value) pairs ModuleSettings.__iter__ yields: each recognized
setting together with its effective value (global value, since no
per-module entry is set in the scenarios modelled here). -/
def module_settings_pairs : List (String × PyVal) :=
  all_settings.map (fun k => (k, ((global_settings.lookup k).getD .vNone)))

/-- dict(settings), as evaluated by parser.parse_annotation when no
options are passed.  dict() consumes the keys of the mapping; because
ModuleSettings.__iter__ yields (key, value) PAIRS instead of keys, the
first key dict() sees is the tuple (enabled, False), and indexing the
proxy with that tuple hits the `key not in all_settings` guard of
ModuleSettings.__getitem__, which raises KeyError.  (Python formats the
message with repr quotes around the string component of the tuple; the
model omits the quotes.) -/
def dict_settings : Except PyError (List (String × PyVal)) :=
  match module_settings_pairs with
  | [] => .ok []
  | (k, v) :: _ =>
      .error (.keyError ("There is not setting called (" ++ k ++ ", " ++ pyStr v ++ ")"))

/-! ## parser.py -/

/-- The kinds of parametrized type hints the claims touch (the source also
recognizes Callable, which no claim exercises and which the model
omits). -/
inductive HintKind where
  | iterator
  | iterable
  | union
  deriving DecidableEq

/-- The shape descriptions (annotations) fed to the annotation compiler.
Each constructor records which of the mutually exclusive source guards
recognizes the annotation: the None literal or NoneType, typing.Any, the
Ellipsis, bare Optional, a pre-built Validator instance, a parametrized
type hint with child shapes, a single class, an iterable of classes, a
plain callable (user predicate) with its __name__, or anything else. -/
inductive Shape where
  | sNoneLit
  | sNoneType
  | sAny
  | sEllipsis
  | sOptionalBare
  | sValidator (v : Validator)
  | sHint (kind : HintKind) (args : List Shape)
  | sClass (t : PyType)
  | sClassList (ts : List PyType)
  | sCallableFunc (name : String) (f : PyVal → PyVal)
  | sOther

/-- The CPython call `TypeValidator([types], check_subclasses=...,
check_compatible_types=...)` as parse_annotation writes it.  The
declared keyword of the constructor is `check_compatible_classes`, so binding
the actual keyword fails with TypeError before the constructor body runs;
were the keyword accepted, the body would assert a non-empty type set and
build the validator. -/
def TypeValidator_kwcall (types : List PyType) (check_subclasses : Bool)
    (kwName : String) (kwVal : Bool) : Except PyError Validator :=
  if kwName == "check_compatible_classes" then
    if types.isEmpty then .error .assertionError
    else .ok (.typeV types check_subclasses kwVal)
  else
    .error (.typeError ("__init__() got an unexpected keyword argument " ++ kwName))

/-- options[key] on a settings snapshot dict. -/
def snapGet (options : List (String × PyVal)) (key : String) : Except PyError PyVal :=
  match options.lookup key with
  | some v => .ok v
  | none => .error (.keyError key)

mutual

/-- parser.parse_annotation with an explicit options mapping.  The ordered
guards of the source: None/NoneType give the None validator (the
iterable-of-None arm of that guard is dead code, since `tuple(x) == (None)`
compares a tuple with the None value); Any, Ellipsis and bare
Optional give the Any validator; a Validator instance is returned
unchanged; a parametrized hint first compiles every child shape — each
child call passes NO options, so it first evaluates dict(settings), which
raises — and then dispatches on the hint kind, where a Union of a shape
and None becomes Optional and any other Union falls back to Any; a single
class or an iterable of classes builds a TypeValidator whose
check_subclasses flag negates options[ignore_subclasses] and whose
coercion flag reads options[match_compatible_types] — a key that is not
among the seven settings — passing it under the keyword
check_compatible_types; a callable becomes a user validator; anything
else the Any validator. -/
def parseAnnot (x : Shape) (options : List (String × PyVal)) : Except PyError Validator :=
  match x with
  | .sNoneLit => .ok .noneV
  | .sNoneType => .ok .noneV
  | .sAny => .ok .anyV
  | .sEllipsis => .ok .anyV
  | .sOptionalBare => .ok .anyV
  | .sValidator v => .ok v
  | .sHint kind args => do
      let cargs ← parseChildren args
      match kind with
      | .iterator =>
          match cargs with
          | [] => .ok (.iteratorV none)
          | [c] => .ok (.iteratorV (some c))
          | _ => .error .assertionError
      | .iterable =>
          match cargs with
          | [] => .ok (.iterableV none)
          | [c] => .ok (.iterableV (some c))
          | _ => .error .assertionError
      | .union =>
          match cargs with
          | [a, .noneV] => .ok (.optionalV a)
          | _ => .ok .anyV
  | .sClass t => do
      let ig ← snapGet options "ignore_subclasses"
      let mct ← snapGet options "match_compatible_types"
      TypeValidator_kwcall [t] (!truthy ig) "check_compatible_types" (truthy mct)
  | .sClassList ts => do
      let ig ← snapGet options "ignore_subclasses"
      let mct ← snapGet options "match_compatible_types"
      TypeValidator_kwcall ts (!truthy ig) "check_compatible_types" (truthy mct)
  | .sCallableFunc name f => .ok (.userV name f)
  | .sOther => .ok .anyV

/-- The recursive child compilations of a parametrized hint:
`tuple(map(parse_annotation, args))` calls parse_annotation with its
options parameter defaulted to None, so each child evaluates
dict(settings) first. -/
def parseChildren : List Shape → Except PyError (List Validator)
  | [] => .ok []
  | a :: rest => do
      let o ← dict_settings
      let va ← parseAnnot a o
      let vrest ← parseChildren rest
      .ok (va :: vrest)

end

/-- parse_annotation called without options (the default-None path), as
decorators.SignatureMixin.validators does for every parameter and return
annotation: dict(settings) is evaluated first. -/
def parseAnnotDefault (x : Shape) : Except PyError Validator := do
  let o ← dict_settings
  parseAnnot x o

/-! ## decorators.py and wrappers.py: the call wrapper -/

/-- The parameter kinds of inspect.Parameter that the binder
distinguishes. -/
inductive ParamKind where
  | positional
  | varPositional
  | varKeyword
  deriving DecidableEq

/-- A declared parameter: name, kind, annotation (none when the parameter
is unannotated) and default value. -/
structure ParamSpec where
  name : String
  kind : ParamKind
  annot : Option Shape
  dflt : Option PyVal

/-- A declared function: __name__, parameter list in declaration order,
and return annotation. -/
structure FuncSpec where
  name : String
  params : List ParamSpec
  retAnnot : Option Shape

/-- The result of decorators.build_wrapper: either the original callable
returned untouched (the enabled=false passthrough) or a validating
wrapper holding the compiled per-parameter validators and the return
validator. -/
inductive WrapResult where
  | passthrough (f : FuncSpec)
  | wrapped (f : FuncSpec) (param_validators : List (String × Validator)) (return_validator : Validator)

/-- decorators.build_wrapper.  Positional decorator arguments are rejected
with ValueError.  The next statement, `options = settings.copy()`,
resolves the attribute copy through the proxy chain: neither the proxy
class nor MutableMapping defines copy, and the per-setting fallback of
ModuleSettings.__getattribute__ turns the resulting KeyError into an
AttributeError — so every call raises here, whatever the function and
keyword arguments.  The remainder of the translation (unreachable in
every execution) models the intended continuation: merge the decorator
keyword arguments over the settings, return the function untouched when
enabled is falsy, and otherwise compile each annotation — with default
options, as SignatureMixin.validators does — into validators. -/
def build_wrapper (func : FuncSpec) (decoratorArgs : List PyVal)
    (decoratorKwargs : List (String × PyVal)) : Except PyError WrapResult := do
  if decoratorArgs.length > 0 then
    .error (.valueError
      ("Positional arguments are not allowed in @checked decorator. " ++
       "Use keyword arguments instead"))
  else do
    let _ ← settings_proxy_getattr "copy"
    let options := decoratorKwargs.foldl (fun acc p => assocSet acc p.1 p.2) global_settings
    match options.lookup "enabled" with
    | some e =>
        if truthy e then do
          let pvs ← func.params.mapM (fun p => do
              let v ← parseAnnotDefault (p.annot.getD .sAny)
              pure (p.name, v))
          let rv ← parseAnnotDefault (func.retAnnot.getD .sAny)
          .ok (.wrapped func pvs rv)
        else .ok (.passthrough func)
    | none => .ok (.passthrough func)

/-- A bound argument as inspect.BoundArguments.arguments stores it after
apply_defaults: a plain value for an ordinary parameter, the collected
tuple for a variadic-positional parameter, the collected dict for a
variadic-keyword parameter. -/
inductive BoundVal where
  | single (v : PyVal)
  | varTuple (vs : List PyVal)
  | varDict (kvs : List (String × PyVal))

/-- signature.bind(*args) followed by apply_defaults, for a positional
call: ordinary parameters consume the supplied values in order, falling
back to their defaults (TypeError when a required one is missing), a
variadic-positional parameter collects the surplus (TypeError when there
is a surplus and no such parameter), and an unsupplied variadic-keyword
parameter is filled with an empty dict. -/
def bindArgs : List ParamSpec → List PyVal → Except PyError (List (String × BoundVal))
  | [], [] => .ok []
  | [], _ :: _ => .error (.typeError "too many positional arguments")
  | p :: ps, args =>
      match p.kind with
      | .varPositional => do
          let rest ← bindArgs ps []
          .ok ((p.name, .varTuple args) :: rest)
      | .varKeyword => do
          let rest ← bindArgs ps args
          .ok ((p.name, .varDict []) :: rest)
      | .positional =>
          match args with
          | a :: args2 => do
              let rest ← bindArgs ps args2
              .ok ((p.name, .single a) :: rest)
          | [] =>
              match p.dflt with
              | some d => do
                  let rest ← bindArgs ps []
                  .ok ((p.name, .single d) :: rest)
              | none => .error (.typeError ("missing a required argument: " ++ p.name))

/-- The kind of the declared parameter a bound name refers to. -/
def paramKindOf (params : List ParamSpec) (key : String) : Option ParamKind :=
  (params.find? (fun p => p.name == key)).map (fun p => p.kind)

/-- The per-parameter loop of ValidateFuncWrapper.validate_input (the loop
of decorators.Wrapper.__call__ is the same except that it drops the
variadic-keyword collection instead of forwarding it).  In declaration
order: a variadic-keyword collection is passed through to the keyword
dict; a variadic-positional collection has each item validated under the
context label `items on *name` only when the name has a validator AND
options[match_varargs] is truthy, otherwise its items pass through
unchanged; an ordinary parameter is validated under its own name as the
context label.  The first failing validation raises.  Returns the
accumulated ordinary arguments, variadic items, and keyword entries. -/
def vi_loop (wname : String) (params : List ParamSpec) (pvs : List (String × Validator))
    (options : List (String × PyVal)) :
    List (String × BoundVal) → Except PyError (List PyObj × List PyObj × List (String × PyVal))
  | [] => .ok ([], [], [])
  | (key, bv) :: rest => do
      let head ←
        match paramKindOf params key, bv with
        | some .varKeyword, .varDict kvs => pure (([], [], kvs) : List PyObj × List PyObj × List (String × PyVal))
        | some .varPositional, .varTuple vs =>
            match pvs.lookup key with
            | some vd => do
                let mv ← snapGet options "match_varargs"
                if truthy mv then do
                  let items ← vs.mapM (fun item =>
                      validate vd item ⟨some wname, some ("items on *" ++ key)⟩)
                  pure (([], items, []) : List PyObj × List PyObj × List (String × PyVal))
                else
                  pure (([], vs.map .plain, []) : List PyObj × List PyObj × List (String × PyVal))
            | none => pure (([], vs.map .plain, []) : List PyObj × List PyObj × List (String × PyVal))
        | _, .single v =>
            match pvs.lookup key with
            | some vd => do
                let r ← validate vd v ⟨some wname, some key⟩
                pure (([r], [], []) : List PyObj × List PyObj × List (String × PyVal))
            | none => .error (.keyError key)
        | _, _ => pure (([], [], []) : List PyObj × List PyObj × List (String × PyVal))
      let tail ← vi_loop wname params pvs options rest
      .ok (head.1 ++ tail.1, head.2.1 ++ tail.2.1, head.2.2 ++ tail.2.2)

/-- ValidateFuncWrapper.validate_input for a positional call: when
options[match_args] is falsy the original arguments pass through
untouched; otherwise the arguments are bound (defaults applied) and fed
through the per-parameter loop, and the ordinary arguments are
concatenated with the expanded variadic items. -/
def validate_input (wname : String) (params : List ParamSpec)
    (pvs : List (String × Validator)) (options : List (String × PyVal))
    (callArgs : List PyVal) : Except PyError (List PyObj × List (String × PyVal)) := do
  let ma ← snapGet options "match_args"
  if truthy ma then do
    let bound ← bindArgs params callArgs
    let r ← vi_loop wname params pvs options bound
    .ok (r.1 ++ r.2.1, r.2.2)
  else
    .ok (callArgs.map .plain, [])

/-! ## Concrete scenarios used by the claims -/

/-- The function add(x: int, y: int) -> int of the end-to-end claim. -/
def addSpec : FuncSpec :=
  ⟨"add",
   [⟨"x", .positional, some (.sClass .tInt), none⟩,
    ⟨"y", .positional, some (.sClass .tInt), none⟩],
   some (.sClass .tInt)⟩

/-- The function f(*items: int) of the variadic claim. -/
def fVarSpec : FuncSpec :=
  ⟨"f", [⟨"items", .varPositional, some (.sClass .tInt), none⟩], none⟩

/-- A Type-set([int]) validator with the source defaults
(check_subclasses on, coercion off). -/
def intChild : Validator := .typeV [.tInt] true false

/-- Iterator-of(Type-set([int])). -/
def iterIntV : Validator := .iteratorV (some intChild)

/-- A snapshot with argument and variadic validation enabled. -/
def varargsOptions : List (String × PyVal) :=
  [("match_args", .vBool true), ("match_varargs", .vBool true)]

/-- The declared validator of the items parameter. -/
def itemsValidators : List (String × Validator) := [("items", intChild)]

/-! ## The claims -/

/-- Claim C1 (code bug).  The claim: wrapping add(x: int, y: int) -> int
with match-args and match-return enabled gives add(2, 3) = 5, while
add(2, "3") and add("2", 3) raise argument-contract violations naming y
and x.  On the code, the first call of the wrapped function already
raises while the wrapper is being built: `options = settings.copy()`
raises AttributeError (neither the proxy nor MutableMapping defines copy),
and even past that point compiling the int annotation raises — with an
explicit seven-setting snapshot the options lookup of the nonexistent
match_compatible_types setting raises KeyError, and on the default path
dict(settings) raises first because ModuleSettings.__iter__ yields pairs.
No call of add can therefore return 5 or a ValidationError naming a
parameter. -/
theorem add_wrapping_raises_before_validation :
    build_wrapper addSpec []
        [("enabled", .vBool true), ("match_args", .vBool true), ("match_return", .vBool true)]
      = .error (.attributeError "There is not setting called copy")
    ∧ parseAnnot (.sClass .tInt) global_settings = .error (.keyError "match_compatible_types")
    ∧ parseAnnotDefault (.sClass .tInt)
      = .error (.keyError "There is not setting called (enabled, False)") :=
  ⟨rfl, rfl, rfl⟩

/-- Claim C2 (code bug).  The claim: with enabled = false in the resolved
settings snapshot, wrapping a callable returns the original callable
itself.  On the code the passthrough branch is unreachable: build_wrapper
evaluates `options = settings.copy()` before the enabled check, and that
attribute lookup always raises AttributeError, for every callable and
every set of decorator keyword arguments. -/
theorem build_wrapper_raises_instead_of_passthrough
    (f : FuncSpec) (kwargs : List (String × PyVal)) :
    build_wrapper f [] kwargs
      = .error (.attributeError "There is not setting called copy") := rfl

/-- Claim C3 (code bug).  The claim: compiling a single concrete type or a
non-empty set of concrete types always yields a Type-set validator with
flags from the active snapshot and never fails.  On the code this
compilation always raises: with the seven-setting snapshot the lookup
options[match_compatible_types] raises KeyError (the setting does not
exist); with the option artificially supplied, the constructor call still
raises TypeError because parse_annotation passes the keyword
check_compatible_types while TypeValidator.__init__ declares
check_compatible_classes; and on the default-options path dict(settings)
raises KeyError before anything else. -/
theorem concrete_type_compilation_raises :
    parseAnnot (.sClass .tInt) global_settings = .error (.keyError "match_compatible_types")
    ∧ parseAnnot (.sClassList [.tInt, .tStr]) global_settings
      = .error (.keyError "match_compatible_types")
    ∧ parseAnnot (.sClass .tInt)
        (global_settings ++ [("match_compatible_types", .vBool false)])
      = .error (.typeError "__init__() got an unexpected keyword argument check_compatible_types")
    ∧ parseAnnotDefault (.sClass .tInt)
      = .error (.keyError "There is not setting called (enabled, False)") :=
  ⟨rfl, rfl, rfl, rfl⟩

/-- Claim C4 (confirmed).  For every concrete type T and every value v of
the universe, Type-set([T]).test(v) is exactly the runtime-type equality
when subclass checking is disabled and exactly isinstance (type equality
or subtype) when it is enabled, coercion disabled in both cases; test
returns the boolean without raising. -/
theorem typeValidator_test_type_membership (T : PyType) (v : PyVal) :
    vtest (.typeV [T] false false) v = .ok (runtimeType v == T)
    ∧ vtest (.typeV [T] true false) v = .ok (pyIsInstance v T) := by
  constructor <;>
    simp [vtest, validatorCall, vtestOf, pyIsInstance, List.any_cons, List.any_nil]

/-- Claim C5 (confirmed).  Validating an iterator against
Iterator-of(Type-set([int])) returns a proxy without pulling anything from
the source (whatever the source items are); on the source 1, 2, "x" the
first two pulls succeed with 1 and 2, each advancing the underlying
iterator by exactly one position, and the third pull raises the
iterator-contract violation; each fact holds with anything appended after
"x", so no item beyond the failing one is ever pulled. -/
theorem iterator_proxy_lazy_validation :
    (∀ items : List PyVal,
      validate iterIntV (.vIter items 0) emptyCtx
        = .ok (.iterProxy items 0 intChild emptyCtx))
    ∧ (∀ rest : List PyVal,
      iterator_proxy_next ([.vInt 1, .vInt 2, .vStr "x"] ++ rest) 0 intChild emptyCtx
        = .ok (.plain (.vInt 1), 1))
    ∧ (∀ rest : List PyVal,
      iterator_proxy_next ([.vInt 1, .vInt 2, .vStr "x"] ++ rest) 1 intChild emptyCtx
        = .ok (.plain (.vInt 2), 2))
    ∧ (∀ rest : List PyVal,
      iterator_proxy_next ([.vInt 1, .vInt 2, .vStr "x"] ++ rest) 2 intChild emptyCtx
        = .error (.validationError none none (some "iterator of int") none
            (some "str value found while iterating") none)) := by
  refine ⟨fun _ => rfl, fun rest => ?_, fun rest => ?_, fun rest => ?_⟩
  · have h : ([PyVal.vInt 1, PyVal.vInt 2, PyVal.vStr "x"] ++ rest)[0]?
        = some (PyVal.vInt 1) := by simp
    unfold iterator_proxy_next
    rw [h]
    rfl
  · have h : ([PyVal.vInt 1, PyVal.vInt 2, PyVal.vStr "x"] ++ rest)[1]?
        = some (PyVal.vInt 2) := by simp
    unfold iterator_proxy_next
    rw [h]
    rfl
  · have h : ([PyVal.vInt 1, PyVal.vInt 2, PyVal.vStr "x"] ++ rest)[2]?
        = some (PyVal.vStr "x") := by simp
    unfold iterator_proxy_next
    rw [h]
    rfl

/-- Claim C6 counterexample.  The claim says test never raises for any
validator and value; a UserValidator whose predicate returns the integer
1 — a truthy value that is neither None, nor a bool, nor a generator —
makes test raise TypeError. -/
theorem test_raises_on_nonbool_predicate :
    vtest (.userV "p" (fun _ => .vInt 1)) .vNone
      = .error (.typeError "Validator.__call__ should return None, bool or generator") := rfl

/-- A validator whose first call phase obeys the outcome protocol: every
user predicate consulted before the first yield returns None or a bool.
All built-in validators satisfy this by construction. -/
def Conforming : Validator → Prop
  | .userV _ f => ∀ v, f v = .vNone ∨ ∃ b, f v = .vBool b
  | .optionalV c => Conforming c
  | _ => True

/-- Helper: normalizing a make_cast generator always produces a boolean. -/
lemma vtestOf_make_cast (v : PyVal) (types : List PyType) :
    ∃ b, vtestOf (.rGen (make_cast v types)) = .ok b := by
  unfold make_cast
  cases cast_methods.findSome? (fun p =>
      if p.2 ∈ types then
        match py_method v p.1 with
        | some res =>
            if runtimeType v == .tComplex && (p.2 == .tFloat || p.2 == .tInt) then none
            else some res
        | none => none
      else none) with
  | some res => exact ⟨true, rfl⟩
  | none => exact ⟨false, rfl⟩

/-- Claim C6 (corrected).  Amended statement: for every validator whose
check obeys the outcome protocol (first signal None, a bool, or a
generator yielding a bool first — in particular every built-in validator,
and user predicates returning None or a bool), test returns a boolean
normalization of the outcome, discarding diagnostics and replacements,
and never raises; a user predicate returning any other value makes test
raise TypeError, as the counterexample shows. -/
theorem test_total_of_conforming :
    ∀ (V : Validator) (v : PyVal), Conforming V → ∃ b, vtest V v = .ok b
  | .anyV, _, _ => ⟨true, rfl⟩
  | .noneV, v, _ => ⟨_, rfl⟩
  | .trueV, v, _ => ⟨_, rfl⟩
  | .falseV, v, _ => ⟨_, rfl⟩
  | .typeV types cs cc, v, _ => by
      unfold vtest validatorCall
      split <;> dsimp only <;> split <;>
        first
          | exact vtestOf_make_cast v types
          | exact ⟨_, rfl⟩
  | .userV name f, v, h => by
      have h2 : ∀ w, f w = .vNone ∨ ∃ b, f w = .vBool b := h
      rcases h2 v with h0 | ⟨b, hb⟩
      · exact ⟨true, by simp [vtest, validatorCall, h0, vtestOf]⟩
      · exact ⟨b, by simp [vtest, validatorCall, hb, vtestOf]⟩
  | .iteratorV child, v, _ => by
      unfold vtest validatorCall
      split
      · exact ⟨false, rfl⟩
      · split <;> exact ⟨true, rfl⟩
  | .iterableV child, v, _ => by
      unfold vtest validatorCall
      split
      · exact ⟨false, rfl⟩
      · split <;> exact ⟨true, rfl⟩
  | .optionalV c, v, h => by
      have ih := test_total_of_conforming c v h
      unfold vtest validatorCall
      by_cases hn : isNoneVal v
      · simp [hn, vtestOf]
      · rcases ih with ⟨b, hb⟩
        simp only [hn, if_neg, Bool.false_eq_true]
        rw [show vtestOf (validatorCall c v) = Except.ok b from hb]
        cases b
        · exact ⟨false, by simp [vtestOf]⟩
        · exact ⟨true, by simp [vtestOf]⟩

/-- Witness for test_total_of_conforming: an Optional-of(Type-set([int]))
validator applied to a string. -/
theorem test_total_of_conforming_witness :
    Conforming (.optionalV (.typeV [.tInt] true false))
    ∧ ∃ b, vtest (.optionalV (.typeV [.tInt] true false)) (.vStr "a") = .ok b :=
  ⟨trivial, test_total_of_conforming _ _ trivial⟩

/-- Claim C7 (confirmed).  A Type-set validator with coercion enabled
whose non-empty target set contains only the integer and real types never
converts a complex source value: the check fails with the type-set
diagnostic instead of succeeding with a replacement (complex defines no
__int__ or __float__, and the explicit make_cast guard additionally skips
any int/float coercion of a complex source). -/
theorem no_complex_coercion (re im : Int) (types : List PyType) (cs : Bool)
    (hne : types ≠ [])
    (hnum : ∀ t ∈ types, t = PyType.tInt ∨ t = PyType.tFloat) :
    validate (.typeV types cs true) (.vComplex re im) emptyCtx
      = .error (.validationError none none (some (typeSetNiddle types))
          (some "complex") none none) := by
  have hb : PyType.tBool ∉ types := fun hm => by rcases hnum _ hm with h | h <;> simp_all
  have hstr : PyType.tStr ∉ types := fun hm => by rcases hnum _ hm with h | h <;> simp_all
  have hcx : PyType.tComplex ∉ types := fun hm => by rcases hnum _ hm with h | h <;> simp_all
  have hby : PyType.tBytes ∉ types := fun hm => by rcases hnum _ hm with h | h <;> simp_all
  have h1 : (types.any fun t => isSubclassB (runtimeType (PyVal.vComplex re im)) t) = false := by
    rw [List.any_eq_false]
    intro t ht
    rcases hnum t ht with h | h <;> subst h <;> simp [runtimeType, isSubclassB]
  have h2 : (types.any fun t => runtimeType (PyVal.vComplex re im) == t) = false := by
    rw [List.any_eq_false]
    intro t ht
    rcases hnum t ht with h | h <;> subst h <;> simp [runtimeType]
  have hmc : make_cast (PyVal.vComplex re im) types = .stopRet (some false) := by
    unfold make_cast
    simp only [cast_methods, List.findSome?_cons, py_method]
    simp [hb, hstr, hcx, hby, List.findSome?]
  have hcall : validatorCall (.typeV types cs true) (.vComplex re im)
      = .rGen (.stopRet (some false)) := by
    unfold validatorCall
    cases cs <;> simp only [h1, h2, Bool.not_false, Bool.and_true, if_true, hmc] <;> rfl
  unfold validate
  rw [hcall]
  simp [validateOf, validatorError, niddle, isNoneVal, runtimeType, typeName, emptyCtx]

/-- Witness for no_complex_coercion: the complex value 1+2j against the
target set [int] with subclass checking on. -/
theorem no_complex_coercion_witness :
    validate (.typeV [PyType.tInt] true true) (.vComplex 1 2) emptyCtx
      = .error (.validationError none none (some (typeSetNiddle [PyType.tInt]))
          (some "complex") none none) :=
  no_complex_coercion 1 2 [PyType.tInt] true (by simp) (by decide)

/-- Claim C8 (code bug).  The claim: wrapping f(*items: int) with argument
and variadic validation enabled lets f(1, 2, 3) succeed and makes
f(1, "2") raise citing items on *items, items being validated
individually exactly when a validator is declared for them and variadic
validation is enabled.  On the code, wrapping f already raises:
build_wrapper fails at settings.copy(), and compiling the int annotation
raises KeyError, so no call of the wrapped f can run.  The per-item
dispatch logic itself, run on validate_input with the int validator
injected directly, does behave as claimed: 1, 2, 3 pass through
validated, a failing item raises the violation whose context cites
items on *items, and with variadic validation disabled or no declared
validator the items pass through unchanged. -/
theorem varargs_validation_behaviour :
    build_wrapper fVarSpec [] [("enabled", .vBool true)]
      = .error (.attributeError "There is not setting called copy")
    ∧ parseAnnot (.sClass .tInt) global_settings = .error (.keyError "match_compatible_types")
    ∧ validate_input "f" fVarSpec.params itemsValidators varargsOptions
        [.vInt 1, .vInt 2, .vInt 3]
      = .ok ([.plain (.vInt 1), .plain (.vInt 2), .plain (.vInt 3)], [])
    ∧ validate_input "f" fVarSpec.params itemsValidators varargsOptions
        [.vInt 1, .vStr "2"]
      = .error (.validationError (some "f") (some "items on *items")
          (some "int") (some "str") none none)
    ∧ validate_input "f" fVarSpec.params itemsValidators
        [("match_args", .vBool true), ("match_varargs", .vBool false)]
        [.vInt 1, .vStr "2"]
      = .ok ([.plain (.vInt 1), .plain (.vStr "2")], [])
    ∧ validate_input "f" fVarSpec.params [] varargsOptions [.vInt 1, .vStr "2"]
      = .ok ([.plain (.vInt 1), .plain (.vStr "2")], []) :=
  ⟨rfl, rfl, rfl, rfl, rfl, rfl⟩

/-- Helper for claim C9: a well-typed in-place update keeps the Settings
invariant. -/
lemma settingsInvB_assocSet (entries : List (String × PyVal)) (key : String) (value : PyVal)
    (spec : PyType) (hs : setting_specs.lookup key = some spec)
    (hv : pyIsInstance value spec = true) (hinv : settingsInvB entries = true) :
    settingsInvB (assocSet entries key value) = true := by
  induction entries with
  | nil => simp [assocSet, settingsInvB, hs, hv]
  | cons p rest ih =>
      obtain ⟨k0, v0⟩ := p
      rw [settingsInvB, List.all_cons] at hinv
      rw [Bool.and_eq_true] at hinv
      obtain ⟨hhead, htail⟩ := hinv
      by_cases hk : k0 == key
      · rw [assocSet]
        rw [if_pos hk]
        rw [settingsInvB, List.all_cons]
        simp only [hs, hv]
        exact htail
      · rw [assocSet]
        rw [if_neg hk]
        rw [settingsInvB, List.all_cons]
        rw [Bool.and_eq_true]
        exact ⟨hhead, ih htail⟩

/-- Claim C9 (confirmed).  Settings.__setitem__ raises KeyError for an
unrecognized key and TypeError for a recognized key with a value of the
wrong declared type, leaving the entries untouched in both cases; and a
set that raises nothing preserves the invariant that the mapping only
holds recognized settings with values of their declared types. -/
theorem settings_setitem_ok (entries : List (String × PyVal)) (key : String) (value : PyVal) :
    (setting_specs.lookup key = none →
      settings_setitem entries key value
        = (some (.keyError (key ++ " is not a valid setting")), entries))
    ∧ (∀ spec, setting_specs.lookup key = some spec → pyIsInstance value spec = false →
      settings_setitem entries key value
        = (some (.typeError (key ++ " setting must be a " ++ typeName spec ++ " value")), entries))
    ∧ (settingsInvB entries = true → (settings_setitem entries key value).1 = none →
      settingsInvB (settings_setitem entries key value).2 = true) := by
  refine ⟨?_, ?_, ?_⟩
  · intro h
    simp [settings_setitem, h]
  · intro spec hs hv
    simp [settings_setitem, hs, hv]
  · intro hinv hnone
    cases hlk : setting_specs.lookup key with
    | none => rw [settings_setitem, hlk] at hnone; simp at hnone
    | some spec =>
        by_cases hv : pyIsInstance value spec
        · have heq : settings_setitem entries key value = (none, assocSet entries key value) := by
            simp [settings_setitem, hlk, hv]
          rw [heq]
          exact settingsInvB_assocSet entries key value spec hlk hv hinv
        · rw [settings_setitem, hlk] at hnone
          simp [hv] at hnone

/-- Witness for settings_setitem_ok: an unrecognized key, a recognized key
with an int value, and a successful well-typed set. -/
theorem settings_setitem_ok_witness :
    settings_setitem [("enabled", .vBool false)] "foo" (.vBool true)
      = (some (.keyError "foo is not a valid setting"), [("enabled", .vBool false)])
    ∧ settings_setitem [("enabled", .vBool false)] "enabled" (.vInt 1)
      = (some (.typeError "enabled setting must be a bool value"), [("enabled", .vBool false)])
    ∧ settingsInvB (settings_setitem [("enabled", .vBool false)] "match_return" (.vBool true)).2
      = true := by
  refine ⟨?_, ?_, ?_⟩
  · exact (settings_setitem_ok [("enabled", .vBool false)] "foo" (.vBool true)).1 rfl
  · exact (settings_setitem_ok [("enabled", .vBool false)] "enabled" (.vInt 1)).2.1 .tBool rfl rfl
  · exact (settings_setitem_ok [("enabled", .vBool false)] "match_return" (.vBool true)).2.2 rfl rfl

/-- Claim C10 (confirmed).  For every integer k greater than 2 the ordinal
label is the decimal string of k followed by th — so the third position
renders as 3th, not 3rd — and only 1 and 2 yield 1st and 2nd. -/
theorem ordinal_above_two (k : Int) (h : 2 < k) :
    ordinal k = .ok (toString k ++ "th")
    ∧ ordinal 1 = .ok "1st" ∧ ordinal 2 = .ok "2nd" ∧ ordinal 3 = .ok "3th" := by
  refine ⟨?_, rfl, rfl, rfl⟩
  unfold ordinal
  rw [if_pos (by omega : k > 0), if_neg (by omega : ¬k = 1), if_neg (by omega : ¬k = 2)]

/-- Witness for ordinal_above_two at k = 5. -/
theorem ordinal_above_two_witness : (2 : Int) < 5 ∧ ordinal 5 = .ok "5th" :=
  ⟨by norm_num, by rw [(ordinal_above_two 5 (by norm_num)).1]; rfl⟩
